import Mathlib

/-!
Verification of the AnonChat negotiation core (src/hooks/useWebRTC.ts).

The coordinator state below is a shallow embedding of the mutable refs of
the useWebRTC hook; each signaling-message case of its switch statement
becomes a pure state-transformer.  The session transport (RTCPeerConnection)
is modelled by its signaling state, its descriptions, and a log of the
operations performed on it (rollback, setRemoteDescription,
setLocalDescription, addIceCandidate), so ordering claims about candidate
application are observable.
-/

namespace AnonChat

/-- Signaling states of the session transport (RTCSignalingState). -/
inductive SignalingState where
  | stable
  | haveLocalOffer
  | haveRemoteOffer
  | haveLocalPranswer
  | haveRemotePranswer
  | closed
deriving DecidableEq, Repr

/-- Operations performed on the session transport, recorded in order.
The addIce constructor records the candidate and whether the underlying
addIceCandidate call succeeded. -/
inductive TOp where
  | rollback
  | setRemote (sdp : String)
  | setLocal (sdp : String)
  | addIce (c : Nat) (ok : Bool)
deriving DecidableEq, Repr

/-- The session transport: one RTCPeerConnection instance. -/
structure Transport where
  signalingState : SignalingState
  remoteDescription : Option String
  localDescription : Option String
  ops : List TOp
deriving DecidableEq, Repr

/-- Messages sent by the coordinator to the relay. -/
inductive OutMsg where
  | join
  | offer (sdp : String)
  | answer (sdp : String)
deriving DecidableEq, Repr

/-- Inbound signaling messages (the wire format of src/types.ts; ICE
candidates are identified by a numeric token). -/
inductive Msg where
  | join (senderId : String)
  | offer (senderId : String) (payload : String)
  | answer (senderId : String) (payload : String)
  | ice (senderId : String) (candidate : Nat)
  | leave (senderId : String)
  | kick (senderId : String)
deriving DecidableEq, Repr

/-- Transport connectivity events (RTCPeerConnectionState), inputs of the
onconnectionstatechange handler. -/
inductive ConnState where
  | newConn
  | connecting
  | connected
  | disconnected
  | failed
  | closed
deriving DecidableEq, Repr

/-- The coordinator state: the mutable refs of the useWebRTC hook, plus an
outbox recording the messages handed to signalingService.send. -/
structure Coordinator where
  pc : Option Transport
  hasRemoteDescription : Bool
  pendingIceCandidates : List Nat
  processedJoins : List String
  isConnected : Bool
  isConnecting : Bool
  isHost : Bool
  errorMsg : Option String
  remoteStream : Bool
  resendCount : Nat
  intervalActive : Bool
  outbox : List OutMsg
  kicked : Bool
deriving DecidableEq, Repr

/-- Environment of one room membership: the local identity, the room id,
which candidates the transport accepts (addIceCandidate succeeds), and the
descriptions produced by createOffer / createAnswer. -/
structure Config where
  selfId : String
  roomId : String
  applyOk : Nat → Bool
  offerSdp : String
  answerSdp : String

/-- Negotiation roles of section 4.2 of the spec: Follower is the polite
peer (answers), Leader the impolite peer (offers). -/
inductive Role where
  | Leader
  | Follower
deriving DecidableEq, Repr

/-- Lexicographic comparison of character lists by code point: the
strict-less-than the runtime uses to compare identifier strings. -/
def strLtB : List Char → List Char → Bool
  | _, [] => false
  | [], _ :: _ => true
  | a :: as, b :: bs =>
    if a.toNat < b.toNat then true
    else if b.toNat < a.toNat then false
    else strLtB as bs

/-- s strictly greater than t in the fixed lexicographic total order. -/
def strGt (s t : String) : Bool :=
  strLtB t.data s.data

/-- Role resolution, the isPolite computation of the join case:
isPolite is myUserId greater than otherUserId, and the polite peer is the
Follower (answers); the impolite peer is the Leader (offers). -/
def resolveRole (selfId peerId : String) : Role :=
  if strGt selfId peerId then Role.Follower else Role.Leader

/-- A fresh RTCPeerConnection: stable, no descriptions, nothing done yet. -/
def freshTransport : Transport :=
  { signalingState := SignalingState.stable
    remoteDescription := none
    localDescription := none
    ops := [] }

/-- setLocalDescription with a rollback description: back to stable, local
description discarded. -/
def rollbackPc (t : Transport) : Transport :=
  { t with signalingState := SignalingState.stable
           localDescription := none
           ops := t.ops ++ [TOp.rollback] }

/-- setRemoteDescription with an offer: moves to have-remote-offer. -/
def setRemoteOffer (sdp : String) (t : Transport) : Transport :=
  { t with remoteDescription := some sdp
           signalingState := SignalingState.haveRemoteOffer
           ops := t.ops ++ [TOp.setRemote sdp] }

/-- setRemoteDescription with an answer: completes the exchange, stable. -/
def setRemoteAnswer (sdp : String) (t : Transport) : Transport :=
  { t with remoteDescription := some sdp
           signalingState := SignalingState.stable
           ops := t.ops ++ [TOp.setRemote sdp] }

/-- setLocalDescription with an offer: moves to have-local-offer. -/
def setLocalOffer (sdp : String) (t : Transport) : Transport :=
  { t with localDescription := some sdp
           signalingState := SignalingState.haveLocalOffer
           ops := t.ops ++ [TOp.setLocal sdp] }

/-- setLocalDescription with an answer: completes the exchange, stable. -/
def setLocalAnswer (sdp : String) (t : Transport) : Transport :=
  { t with localDescription := some sdp
           signalingState := SignalingState.stable
           ops := t.ops ++ [TOp.setLocal sdp] }

/-- One addIceCandidate call wrapped in try/catch: the attempt is recorded
together with its outcome; a failure is logged and swallowed. -/
def addIceCandidate (applyOk : Nat → Bool) (c : Nat) (t : Transport) : Transport :=
  { t with ops := t.ops ++ [TOp.addIce c (applyOk c)] }

/-- Candidates passed to addIceCandidate, in order. -/
def Transport.attempted (t : Transport) : List Nat :=
  t.ops.filterMap fun op =>
    match op with
    | TOp.addIce c _ => some c
    | _ => none

/-- Candidates successfully applied, in order. -/
def Transport.applied (t : Transport) : List Nat :=
  t.ops.filterMap fun op =>
    match op with
    | TOp.addIce c ok => if ok then some c else none
    | _ => none

/-- The drain loop of the offer and answer cases: shift candidates off the
pending queue one by one and addIceCandidate each, a per-candidate
try/catch keeping the loop alive past failures. -/
def drainPending (applyOk : Nat → Bool) : List Nat → Transport → Transport
  | [], t => t
  | c :: rest, t => drainPending applyOk rest (addIceCandidate applyOk c t)

/-- createPeerConnection: returns the existing connection if there is one,
otherwise installs a fresh transport and resets the remote-description
flag, the pending queue and the remote stream. -/
def createPeerConnection (st : Coordinator) : Coordinator :=
  match st.pc with
  | some _ => st
  | none =>
    { st with pc := some freshTransport
              hasRemoteDescription := false
              pendingIceCandidates := []
              remoteStream := false }

/-- The dedup key of the join case: senderId dash roomId. -/
def joinKeyOf (cfg : Config) (senderId : String) : String :=
  senderId ++ "-" ++ cfg.roomId

/-- The four in-progress signaling states checked by the join case. -/
def isInProgressState : SignalingState → Bool
  | SignalingState.haveLocalOffer => true
  | SignalingState.haveRemoteOffer => true
  | SignalingState.haveLocalPranswer => true
  | SignalingState.haveRemotePranswer => true
  | _ => false

/-- The impolite branch of the join case: mark connecting, roll back if not
stable, create the offer, set it locally and send it. -/
def leaderNegotiate (cfg : Config) (st : Coordinator) (t : Transport) : Coordinator :=
  let t1 := if t.signalingState = SignalingState.stable then t else rollbackPc t
  let t2 := setLocalOffer cfg.offerSdp t1
  { st with isHost := true
            isConnecting := true
            isConnected := false
            errorMsg := none
            pc := some t2
            outbox := st.outbox ++ [OutMsg.offer cfg.offerSdp] }

/-- The join case of the signaling switch. -/
def handleJoin (cfg : Config) (senderId : String) (st : Coordinator) : Coordinator :=
  if senderId = cfg.selfId then st
  else if joinKeyOf cfg senderId ∈ st.processedJoins then st
  else if st.isConnecting = true ∨ st.isConnected = true then st
  else
    let st1 := { st with processedJoins := st.processedJoins ++ [joinKeyOf cfg senderId]
                         intervalActive := false }
    match st1.pc with
    | none => st1
    | some t =>
      if isInProgressState t.signalingState then
        { st1 with processedJoins := st1.processedJoins.erase (joinKeyOf cfg senderId) }
      else
        let t1 := if t.signalingState = SignalingState.closed then freshTransport else t
        let st2 :=
          if t.signalingState = SignalingState.closed then
            { st1 with pc := some freshTransport
                       hasRemoteDescription := false
                       pendingIceCandidates := []
                       remoteStream := false }
          else st1
        if resolveRole cfg.selfId senderId = Role.Follower then
          { st2 with isHost := false, isConnecting := true }
        else
          leaderNegotiate cfg st2 t1

/-- The offer case: mark connecting, roll back on glare, set the remote
description, drain the pending queue, create, set and send the answer. -/
def handleOffer (cfg : Config) (payload : String) (st : Coordinator) : Coordinator :=
  match st.pc with
  | none => st
  | some t =>
    let t1 := if t.signalingState = SignalingState.stable then t else rollbackPc t
    let t2 := setRemoteOffer payload t1
    let t3 := drainPending cfg.applyOk st.pendingIceCandidates t2
    let t4 := setLocalAnswer cfg.answerSdp t3
    { st with isConnecting := true
              errorMsg := none
              hasRemoteDescription := true
              pendingIceCandidates := []
              pc := some t4
              outbox := st.outbox ++ [OutMsg.answer cfg.answerSdp] }

/-- The answer case: only in have-local-offer set the remote description
and drain the pending queue; otherwise do nothing. -/
def handleAnswer (cfg : Config) (payload : String) (st : Coordinator) : Coordinator :=
  match st.pc with
  | none => st
  | some t =>
    if t.signalingState = SignalingState.haveLocalOffer then
      let t1 := setRemoteAnswer payload t
      let t2 := drainPending cfg.applyOk st.pendingIceCandidates t1
      { st with hasRemoteDescription := true
                pendingIceCandidates := []
                pc := some t2 }
    else st

/-- The ice-candidate case: queue while there is no remote description,
otherwise apply immediately. -/
def handleIce (cfg : Config) (c : Nat) (st : Coordinator) : Coordinator :=
  match st.pc with
  | none => st
  | some t =>
    if st.hasRemoteDescription = false then
      { st with pendingIceCandidates := st.pendingIceCandidates ++ [c] }
    else
      { st with pc := some (addIceCandidate cfg.applyOk c t) }

/-- The leave case: drop the remote stream, reset the status, close and
discard the transport, clear the queue, the flag, the resend counter and
the processed-join set. -/
def handleLeave (st : Coordinator) : Coordinator :=
  { st with remoteStream := false
            isConnected := false
            isConnecting := false
            errorMsg := some "Peer disconnected"
            pc := none
            hasRemoteDescription := false
            pendingIceCandidates := []
            resendCount := 0
            processedJoins := [] }

/-- One inbound message through the handler: ensure a peer connection
exists (createPeerConnection), then dispatch on the message type. -/
def handleMessage (cfg : Config) (st : Coordinator) (m : Msg) : Coordinator :=
  let st := createPeerConnection st
  match m with
  | Msg.join s => handleJoin cfg s st
  | Msg.offer _ p => handleOffer cfg p st
  | Msg.answer _ p => handleAnswer cfg p st
  | Msg.ice _ c => handleIce cfg c st
  | Msg.leave _ => handleLeave st
  | Msg.kick _ => { st with kicked := true }

/-- The display name of a connectivity event in the error string. -/
def connStateName : ConnState → String
  | ConnState.newConn => "new"
  | ConnState.connecting => "connecting"
  | ConnState.connected => "connected"
  | ConnState.disconnected => "disconnected"
  | ConnState.failed => "failed"
  | ConnState.closed => "closed"

/-- The onconnectionstatechange handler of createPeerConnection. -/
def handleConnectionState (st : Coordinator) (cs : ConnState) : Coordinator :=
  match cs with
  | ConnState.connected =>
    { st with isConnected := true, isConnecting := false, errorMsg := none }
  | ConnState.disconnected =>
    { st with isConnected := false, isConnecting := false
              errorMsg := some ("Connection " ++ connStateName ConnState.disconnected)
              remoteStream := false }
  | ConnState.failed =>
    { st with isConnected := false, isConnecting := false
              errorMsg := some ("Connection " ++ connStateName ConnState.failed)
              remoteStream := false }
  | ConnState.closed =>
    { st with isConnected := false, isConnecting := false
              errorMsg := some ("Connection " ++ connStateName ConnState.closed)
              remoteStream := false }
  | ConnState.connecting =>
    { st with isConnecting := true }
  | ConnState.newConn => st

/-- The resend cap of the presence announcer. -/
def maxResends : Nat := 5

/-- One tick of the joinResendInterval timer: while the interval is live
and the coordinator is neither connected nor connecting and the cap is not
reached, send another join; if connecting or connected, clear the interval. -/
def announcerTick (st : Coordinator) : Coordinator :=
  if st.intervalActive = false then st
  else if st.isConnected = false ∧ st.isConnecting = false ∧ st.resendCount < maxResends then
    { st with resendCount := st.resendCount + 1
              outbox := st.outbox ++ [OutMsg.join] }
  else if st.isConnecting = true ∨ st.isConnected = true then
    { st with intervalActive := false }
  else st

/-- The coordinator right after setupSignaling: no transport, empty queue
and set, interval armed, the initial join already sent. -/
def initCoordinator : Coordinator :=
  { pc := none
    hasRemoteDescription := false
    pendingIceCandidates := []
    processedJoins := []
    isConnected := false
    isConnecting := false
    isHost := false
    errorMsg := none
    remoteStream := false
    resendCount := 0
    intervalActive := true
    outbox := [OutMsg.join]
    kicked := false }

/-- The announcer run with no counterpart ever joining: n timer ticks from
the initial state. -/
def afterTicks (n : Nat) : Coordinator :=
  announcerTick^[n] initCoordinator

/-- How many join messages an outbox holds. -/
def OutMsg.isJoin : OutMsg → Bool
  | OutMsg.join => true
  | _ => false

def countJoins (l : List OutMsg) : Nat :=
  (l.filter OutMsg.isJoin).length

/-! ### Transport-operation bookkeeping -/

theorem addIceCandidate_attempted (f : Nat → Bool) (c : Nat) (t : Transport) :
    (addIceCandidate f c t).attempted = t.attempted ++ [c] := by
  simp [addIceCandidate, Transport.attempted]

theorem addIceCandidate_applied (f : Nat → Bool) (c : Nat) (t : Transport) :
    (addIceCandidate f c t).applied = t.applied ++ if f c then [c] else [] := by
  cases hfc : f c <;> simp [addIceCandidate, Transport.applied, hfc]

theorem drainPending_ops (f : Nat → Bool) (q : List Nat) (t : Transport) :
    (drainPending f q t).ops = t.ops ++ q.map fun c => TOp.addIce c (f c) := by
  induction q generalizing t with
  | nil => simp [drainPending]
  | cons c rest ih => simp [drainPending, ih, addIceCandidate]

theorem drainPending_attempted (f : Nat → Bool) (q : List Nat) (t : Transport) :
    (drainPending f q t).attempted = t.attempted ++ q := by
  induction q generalizing t with
  | nil => simp [drainPending]
  | cons c rest ih => simp [drainPending, ih, addIceCandidate_attempted]

theorem drainPending_applied (f : Nat → Bool) (q : List Nat) (t : Transport) :
    (drainPending f q t).applied = t.applied ++ q.filter f := by
  induction q generalizing t with
  | nil => simp [drainPending]
  | cons c rest ih =>
    cases hfc : f c <;>
      simp [drainPending, ih, addIceCandidate_applied, hfc, List.filter_cons]

theorem drainPending_signalingState (f : Nat → Bool) (q : List Nat) (t : Transport) :
    (drainPending f q t).signalingState = t.signalingState := by
  induction q generalizing t with
  | nil => simp [drainPending]
  | cons c rest ih => simp [drainPending, ih, addIceCandidate]

theorem rollbackPc_attempted (t : Transport) :
    (rollbackPc t).attempted = t.attempted := by
  simp [rollbackPc, Transport.attempted]

theorem setRemoteOffer_attempted (sdp : String) (t : Transport) :
    (setRemoteOffer sdp t).attempted = t.attempted := by
  simp [setRemoteOffer, Transport.attempted]

theorem setRemoteAnswer_attempted (sdp : String) (t : Transport) :
    (setRemoteAnswer sdp t).attempted = t.attempted := by
  simp [setRemoteAnswer, Transport.attempted]

theorem setLocalAnswer_attempted (sdp : String) (t : Transport) :
    (setLocalAnswer sdp t).attempted = t.attempted := by
  simp [setLocalAnswer, Transport.attempted]

theorem rollbackPc_applied (t : Transport) :
    (rollbackPc t).applied = t.applied := by
  simp [rollbackPc, Transport.applied]

theorem setRemoteOffer_applied (sdp : String) (t : Transport) :
    (setRemoteOffer sdp t).applied = t.applied := by
  simp [setRemoteOffer, Transport.applied]

theorem setLocalAnswer_applied (sdp : String) (t : Transport) :
    (setLocalAnswer sdp t).applied = t.applied := by
  simp [setLocalAnswer, Transport.applied]

theorem setRemoteAnswer_applied (sdp : String) (t : Transport) :
    (setRemoteAnswer sdp t).applied = t.applied := by
  simp [setRemoteAnswer, Transport.applied]

/-! ### Unfolding the message dispatcher -/

theorem handleMessage_join (cfg : Config) (st : Coordinator) (s : String) :
    handleMessage cfg st (Msg.join s) = handleJoin cfg s (createPeerConnection st) := rfl

theorem handleMessage_offer (cfg : Config) (st : Coordinator) (s p : String) :
    handleMessage cfg st (Msg.offer s p) = handleOffer cfg p (createPeerConnection st) := rfl

theorem handleMessage_answer (cfg : Config) (st : Coordinator) (s p : String) :
    handleMessage cfg st (Msg.answer s p) = handleAnswer cfg p (createPeerConnection st) := rfl

theorem handleMessage_ice (cfg : Config) (st : Coordinator) (s : String) (c : Nat) :
    handleMessage cfg st (Msg.ice s c) = handleIce cfg c (createPeerConnection st) := rfl

theorem handleMessage_leave (cfg : Config) (st : Coordinator) (s : String) :
    handleMessage cfg st (Msg.leave s) = handleLeave (createPeerConnection st) := rfl

theorem createPeerConnection_of_some (st : Coordinator) (t : Transport)
    (h : st.pc = some t) : createPeerConnection st = st := by
  unfold createPeerConnection
  rw [h]

/-! ### Order facts for the identifier comparison -/

theorem strLtB_asymm : ∀ as bs : List Char, strLtB as bs = true → strLtB bs as = false := by
  intro as
  induction as with
  | nil =>
    intro bs h
    cases bs with
    | nil => simp [strLtB] at h
    | cons b bs => simp [strLtB]
  | cons a as ih =>
    intro bs h
    cases bs with
    | nil => simp [strLtB] at h
    | cons b bs =>
      by_cases hab : a.toNat < b.toNat
      · have hba : ¬ b.toNat < a.toNat := Nat.lt_asymm hab
        simp [strLtB, hab, hba]
      · by_cases hba : b.toNat < a.toNat
        · simp [strLtB, hab, hba] at h
        · simp [strLtB, hab, hba] at h ⊢
          exact ih bs h

theorem strLtB_total : ∀ as bs : List Char,
    strLtB as bs = true ∨ strLtB bs as = true ∨ as = bs := by
  intro as
  induction as with
  | nil =>
    intro bs
    cases bs with
    | nil => right; right; rfl
    | cons b bs => left; simp [strLtB]
  | cons a as ih =>
    intro bs
    cases bs with
    | nil => right; left; simp [strLtB]
    | cons b bs =>
      by_cases hab : a.toNat < b.toNat
      · left; simp [strLtB, hab]
      · by_cases hba : b.toNat < a.toNat
        · right; left; simp [strLtB, hba]
        · have hchar : a = b := by
            have hn : a.toNat = b.toNat :=
              Nat.le_antisymm (Nat.le_of_not_lt hba) (Nat.le_of_not_lt hab)
            exact Char.eq_of_val_eq (UInt32.toNat.inj hn)
          rcases ih bs with h1 | h2 | h3
          · left; simp [strLtB, hab, hba, h1]
          · right; left; simp [strLtB, hab, hba, hchar, h2]
          · right; right; rw [hchar, h3]

theorem strGt_asymm (a b : String) (h : strGt a b = true) : strGt b a = false :=
  strLtB_asymm b.data a.data h

theorem strGt_total (a b : String) (h : a ≠ b) :
    strGt a b = true ∨ strGt b a = true := by
  rcases strLtB_total b.data a.data with h1 | h2 | h3
  · left; exact h1
  · right; exact h2
  · exact absurd (String.ext h3.symm) h

/-- Claim C1: for distinct peer identifiers, role resolution yields
Follower exactly when selfId compares greater than peerId in the fixed
lexicographic total order; the two peers of a pair always receive
complementary roles (exactly one Leader, one Follower); and the function
is pure, so repeated calls with the same pair return the same result. -/
theorem role_resolution_complementary (a b : String) (h : a ≠ b) :
    (resolveRole a b = Role.Follower ↔ strGt a b = true)
    ∧ ((resolveRole a b = Role.Leader ∧ resolveRole b a = Role.Follower)
        ∨ (resolveRole a b = Role.Follower ∧ resolveRole b a = Role.Leader))
    ∧ resolveRole a b = resolveRole a b := by
  refine ⟨?_, ?_, rfl⟩
  · cases hg : strGt a b <;> simp [resolveRole, hg]
  · rcases strGt_total a b h with hg | hg
    · right
      have hg' : strGt b a = false := strGt_asymm a b hg
      exact ⟨by simp [resolveRole, hg], by simp [resolveRole, hg']⟩
    · left
      have hg' : strGt a b = false := strGt_asymm b a hg
      exact ⟨by simp [resolveRole, hg'], by simp [resolveRole, hg]⟩

/-- Claim C3: a candidate arriving while the remote-description flag is
false is appended to the pending queue and not applied; a candidate
arriving while the flag is true is applied immediately and never queued;
and on receiving an Offer, or an Answer in have-local-offer, the queued
candidates are handed to the transport in their original arrival order,
each exactly once, and the queue is emptied. -/
theorem ice_candidate_queueing (cfg : Config) (stq sta : Coordinator)
    (tq ta : Transport) (c : Nat) (s p : String)
    (hq : stq.pc = some tq) (hqf : stq.hasRemoteDescription = false)
    (hlo : tq.signalingState = SignalingState.haveLocalOffer)
    (ha : sta.pc = some ta) (haf : sta.hasRemoteDescription = true) :
    (handleMessage cfg stq (Msg.ice s c)).pendingIceCandidates
        = stq.pendingIceCandidates ++ [c]
    ∧ (handleMessage cfg stq (Msg.ice s c)).pc = some tq
    ∧ (handleMessage cfg sta (Msg.ice s c)).pendingIceCandidates
        = sta.pendingIceCandidates
    ∧ (handleMessage cfg sta (Msg.ice s c)).pc
        = some (addIceCandidate cfg.applyOk c ta)
    ∧ (∃ t', (handleMessage cfg stq (Msg.offer s p)).pc = some t'
        ∧ t'.attempted = tq.attempted ++ stq.pendingIceCandidates)
    ∧ (handleMessage cfg stq (Msg.offer s p)).pendingIceCandidates = []
    ∧ (handleMessage cfg stq (Msg.offer s p)).hasRemoteDescription = true
    ∧ (∃ t', (handleMessage cfg stq (Msg.answer s p)).pc = some t'
        ∧ t'.attempted = tq.attempted ++ stq.pendingIceCandidates)
    ∧ (handleMessage cfg stq (Msg.answer s p)).pendingIceCandidates = []
    ∧ (handleMessage cfg stq (Msg.answer s p)).hasRemoteDescription = true := by
  rw [handleMessage_ice, handleMessage_ice, handleMessage_offer, handleMessage_answer,
      createPeerConnection_of_some stq tq hq, createPeerConnection_of_some sta ta ha]
  refine ⟨?_, ?_, ?_, ?_, ?_, ?_, ?_, ?_, ?_, ?_⟩
  · simp [handleIce, hq, hqf]
  · simp [handleIce, hq, hqf]
  · simp [handleIce, ha, haf]
  · simp [handleIce, ha, haf]
  · refine ⟨setLocalAnswer cfg.answerSdp (drainPending cfg.applyOk
      stq.pendingIceCandidates (setRemoteOffer p (rollbackPc tq))), ?_, ?_⟩
    · simp [handleOffer, hq, hlo]
    · simp [setLocalAnswer_attempted, drainPending_attempted,
        setRemoteOffer_attempted, rollbackPc_attempted]
  · simp [handleOffer, hq]
  · simp [handleOffer, hq]
  · refine ⟨drainPending cfg.applyOk stq.pendingIceCandidates
      (setRemoteAnswer p tq), ?_, ?_⟩
    · simp [handleAnswer, hq, hlo]
    · simp [drainPending_attempted, setRemoteAnswer_attempted]
  · simp [handleAnswer, hq, hlo]
  · simp [handleAnswer, hq, hlo]

/-- Claim C4: the drain loop continues past an individual application
failure: with a failing candidate c in the middle of the queue, every
candidate is still handed to the transport in order, all later succeeding
candidates are applied, the failing one is skipped, the queue is fully
processed, and the session records no error. -/
theorem drain_continues_past_failure (cfg : Config) (st : Coordinator)
    (t : Transport) (q1 q2 : List Nat) (c : Nat) (s p : String)
    (hpc : st.pc = some t)
    (hq : st.pendingIceCandidates = q1 ++ c :: q2)
    (hfail : cfg.applyOk c = false) :
    (∃ t', (handleMessage cfg st (Msg.offer s p)).pc = some t'
      ∧ t'.attempted = t.attempted ++ (q1 ++ c :: q2)
      ∧ t'.applied = t.applied ++ (q1.filter cfg.applyOk ++ q2.filter cfg.applyOk))
    ∧ (handleMessage cfg st (Msg.offer s p)).errorMsg = none
    ∧ (handleMessage cfg st (Msg.offer s p)).pendingIceCandidates = [] := by
  rw [handleMessage_offer, createPeerConnection_of_some st t hpc]
  refine ⟨⟨setLocalAnswer cfg.answerSdp (drainPending cfg.applyOk
      st.pendingIceCandidates (setRemoteOffer p
        (if t.signalingState = SignalingState.stable then t else rollbackPc t))),
      ?_, ?_, ?_⟩, ?_, ?_⟩
  · simp [handleOffer, hpc]
  · by_cases hss : t.signalingState = SignalingState.stable <;>
      simp [hss, hq, setLocalAnswer_attempted, drainPending_attempted,
        setRemoteOffer_attempted, rollbackPc_attempted]
  · by_cases hss : t.signalingState = SignalingState.stable <;>
      simp [hss, hq, setLocalAnswer_applied, drainPending_applied,
        setRemoteOffer_applied, rollbackPc_applied,
        List.filter_append, List.filter_cons, hfail]
  · simp [handleOffer, hpc]
  · simp [handleOffer, hpc]

/-- Claim C5: a foreign Offer received while the transport is not in the
stable sub-state makes the handler roll back first — for every coordinator
state, in particular for either value of the isHost role flag — then set
the remote description, drain the candidate queue, and create and send an
Answer, in that order. -/
theorem glare_rollback_unconditional (cfg : Config) (st : Coordinator)
    (t : Transport) (s p : String) (hpc : st.pc = some t)
    (hns : t.signalingState ≠ SignalingState.stable) :
    (∃ t', (handleMessage cfg st (Msg.offer s p)).pc = some t'
      ∧ t'.ops = t.ops ++ [TOp.rollback, TOp.setRemote p]
          ++ (st.pendingIceCandidates.map fun c => TOp.addIce c (cfg.applyOk c))
          ++ [TOp.setLocal cfg.answerSdp])
    ∧ (handleMessage cfg st (Msg.offer s p)).outbox
        = st.outbox ++ [OutMsg.answer cfg.answerSdp]
    ∧ (handleMessage cfg st (Msg.offer s p)).pendingIceCandidates = []
    ∧ (handleMessage cfg st (Msg.offer s p)).hasRemoteDescription = true := by
  rw [handleMessage_offer, createPeerConnection_of_some st t hpc]
  refine ⟨⟨setLocalAnswer cfg.answerSdp (drainPending cfg.applyOk
      st.pendingIceCandidates (setRemoteOffer p (rollbackPc t))), ?_, ?_⟩, ?_, ?_, ?_⟩
  · simp [handleOffer, hpc, hns]
  · simp [setLocalAnswer, drainPending_ops, setRemoteOffer, rollbackPc]
  · simp [handleOffer, hpc]
  · simp [handleOffer, hpc]
  · simp [handleOffer, hpc]

/-! ### The join case on a first-seen foreign sender -/

theorem handleJoin_first (cfg : Config) (s : String) (st : Coordinator) (t : Transport)
    (hs : s ≠ cfg.selfId) (hkey : joinKeyOf cfg s ∉ st.processedJoins)
    (hcg : st.isConnecting = false) (hcd : st.isConnected = false)
    (hpc : st.pc = some t) (hst : t.signalingState = SignalingState.stable) :
    handleJoin cfg s st =
      if resolveRole cfg.selfId s = Role.Follower then
        { st with processedJoins := st.processedJoins ++ [joinKeyOf cfg s]
                  intervalActive := false
                  isHost := false
                  isConnecting := true }
      else
        { st with processedJoins := st.processedJoins ++ [joinKeyOf cfg s]
                  intervalActive := false
                  isHost := true
                  isConnecting := true
                  isConnected := false
                  errorMsg := none
                  pc := some (setLocalOffer cfg.offerSdp t)
                  outbox := st.outbox ++ [OutMsg.offer cfg.offerSdp] } := by
  unfold handleJoin
  rw [if_neg hs, if_neg hkey, if_neg (by simp [hcg, hcd])]
  simp only [hpc, hst]
  cases hrole : resolveRole cfg.selfId s <;>
    simp [hrole, isInProgressState, leaderNegotiate, hst]

theorem handleJoin_duplicate (cfg : Config) (s : String) (st : Coordinator)
    (hs : s ≠ cfg.selfId) (hkey : joinKeyOf cfg s ∈ st.processedJoins) :
    handleJoin cfg s st = st := by
  unfold handleJoin
  rw [if_neg hs, if_pos hkey]

/-- Claim C2: a Join delivered twice to a coordinator awaiting a
counterpart (no in-progress exchange, foreign first-seen sender, not
already connecting or connected) triggers negotiation exactly once: the
first delivery records the dedup key, enters the connecting state, and,
when the local peer resolves to Leader, sends exactly one offer; the
second delivery is ignored and leaves the state exactly as it was after
the first. -/
theorem join_idempotent (cfg : Config) (st : Coordinator) (s : String)
    (hs : s ≠ cfg.selfId)
    (hkey : joinKeyOf cfg s ∉ st.processedJoins)
    (hcg : st.isConnecting = false) (hcd : st.isConnected = false)
    (hpc : st.pc = none ∨ ∃ t, st.pc = some t ∧ t.signalingState = SignalingState.stable) :
    joinKeyOf cfg s ∈ (handleMessage cfg st (Msg.join s)).processedJoins
    ∧ (handleMessage cfg st (Msg.join s)).isConnecting = true
    ∧ (resolveRole cfg.selfId s = Role.Leader →
        (handleMessage cfg st (Msg.join s)).outbox
          = st.outbox ++ [OutMsg.offer cfg.offerSdp])
    ∧ handleMessage cfg (handleMessage cfg st (Msg.join s)) (Msg.join s)
        = handleMessage cfg st (Msg.join s) := by
  have hbase : ∃ st' t', createPeerConnection st = st'
      ∧ st'.pc = some t' ∧ t'.signalingState = SignalingState.stable
      ∧ st'.processedJoins = st.processedJoins
      ∧ st'.isConnecting = st.isConnecting ∧ st'.isConnected = st.isConnected
      ∧ st'.outbox = st.outbox := by
    rcases hpc with hnone | ⟨t, hsome, hstable⟩
    · refine ⟨createPeerConnection st, freshTransport, rfl, ?_, rfl, ?_, ?_, ?_, ?_⟩ <;>
        simp [createPeerConnection, hnone]
    · exact ⟨st, t, createPeerConnection_of_some st t hsome, hsome, hstable,
        rfl, rfl, rfl, rfl⟩
  rcases hbase with ⟨st', t', hcreate, hpc', hst', hpj', hcg', hcd', hob'⟩
  rw [handleMessage_join, hcreate]
  rw [handleJoin_first cfg s st' t' hs (hpj' ▸ hkey) (hcg' ▸ hcg) (hcd' ▸ hcd) hpc' hst']
  cases hrole : resolveRole cfg.selfId s with
  | Follower =>
    simp only [if_pos rfl]
    refine ⟨by simp [hpj'], by simp, by simp [hrole], ?_⟩
    rw [handleMessage_join]
    rw [createPeerConnection_of_some _ t' (by simp [hpc'])]
    exact handleJoin_duplicate cfg s _ hs (by simp)
  | Leader =>
    rw [if_neg (by simp)]
    refine ⟨by simp [hpj'], by simp, by simp [hob'], ?_⟩
    rw [handleMessage_join]
    rw [createPeerConnection_of_some _ (setLocalOffer cfg.offerSdp t') (by simp)]
    exact handleJoin_duplicate cfg s _ hs (by simp)

/-- Claim C6: after a Leave event the candidate queue is empty, the
remote-description flag is false, the transport is closed and discarded,
and the processed-join record is cleared, so a subsequent foreign Join
from a new sender re-enters negotiation (records its key and moves to
connecting) instead of being ignored. -/
theorem leave_reset_correct (cfg : Config) (st : Coordinator) (s s2 : String)
    (h2 : s2 ≠ cfg.selfId) :
    (handleMessage cfg st (Msg.leave s)).pendingIceCandidates = []
    ∧ (handleMessage cfg st (Msg.leave s)).hasRemoteDescription = false
    ∧ (handleMessage cfg st (Msg.leave s)).pc = none
    ∧ (handleMessage cfg st (Msg.leave s)).processedJoins = []
    ∧ (handleMessage cfg (handleMessage cfg st (Msg.leave s)) (Msg.join s2)).isConnecting
        = true
    ∧ joinKeyOf cfg s2
        ∈ (handleMessage cfg (handleMessage cfg st (Msg.leave s)) (Msg.join s2)).processedJoins := by
  refine ⟨by simp [handleMessage_leave, handleLeave],
    by simp [handleMessage_leave, handleLeave],
    by simp [handleMessage_leave, handleLeave],
    by simp [handleMessage_leave, handleLeave], ?_, ?_⟩ <;>
  · rw [handleMessage_leave, handleMessage_join]
    rw [handleJoin_first cfg s2 _ freshTransport h2
      (by simp [createPeerConnection, handleLeave])
      (by simp [createPeerConnection, handleLeave])
      (by simp [createPeerConnection, handleLeave])
      (by simp [createPeerConnection, handleLeave]) rfl]
    cases hrole : resolveRole cfg.selfId s2 <;>
      simp [hrole, createPeerConnection, handleLeave]

/-- A concrete transport mid-exchange, used as a test point. -/
def tEx : Transport :=
  { signalingState := SignalingState.haveRemoteOffer
    remoteDescription := some "offer-sdp"
    localDescription := none
    ops := [] }

/-- A concrete connecting coordinator with one queued candidate and a
processed join, used as a test point. -/
def stEx : Coordinator :=
  { pc := some tEx
    hasRemoteDescription := true
    pendingIceCandidates := [7]
    processedJoins := ["b2-sunnyriver42"]
    isConnected := false
    isConnecting := true
    isHost := false
    errorMsg := none
    remoteStream := true
    resendCount := 2
    intervalActive := false
    outbox := []
    kicked := false }

/-- Claim C7 counterexample: at a concrete connecting state with one
queued candidate, the failed connectivity event leaves the old transport
in place (neither discarded nor fresh), the candidate queue non-empty and
the remote-description flag still set, so the claimed discard-and-clear
reset does not happen. -/
theorem conn_event_no_reset_counterexample :
    (handleConnectionState stEx ConnState.failed).pc = some tEx
    ∧ (handleConnectionState stEx ConnState.failed).pendingIceCandidates = [7]
    ∧ (handleConnectionState stEx ConnState.failed).hasRemoteDescription = true
    ∧ ¬ ((handleConnectionState stEx ConnState.failed).pendingIceCandidates = []
         ∧ (handleConnectionState stEx ConnState.failed).hasRemoteDescription = false
         ∧ ((handleConnectionState stEx ConnState.failed).pc = none
            ∨ (handleConnectionState stEx ConnState.failed).pc = some freshTransport)) := by
  decide

/-- Claim C7 amended: a disconnected, failed or closed connectivity event
only clears the connected and connecting status flags, records a
connection error and drops the remote media handle; the transport, the
candidate queue, the remote-description flag and the processed-join set
are left unchanged (a fresh transport is only created later, when a Join
message finds the old one closed or missing). -/
theorem conn_event_status_only (st : Coordinator) (cs : ConnState)
    (h : cs = ConnState.disconnected ∨ cs = ConnState.failed ∨ cs = ConnState.closed) :
    (handleConnectionState st cs).isConnected = false
    ∧ (handleConnectionState st cs).isConnecting = false
    ∧ (handleConnectionState st cs).errorMsg = some ("Connection " ++ connStateName cs)
    ∧ (handleConnectionState st cs).remoteStream = false
    ∧ (handleConnectionState st cs).pc = st.pc
    ∧ (handleConnectionState st cs).pendingIceCandidates = st.pendingIceCandidates
    ∧ (handleConnectionState st cs).hasRemoteDescription = st.hasRemoteDescription
    ∧ (handleConnectionState st cs).processedJoins = st.processedJoins := by
  rcases h with h | h | h <;> subst h <;> simp [handleConnectionState, connStateName]

theorem handleJoin_processedJoins_mono (cfg : Config) (s : String) (st : Coordinator)
    (k : String) (hk : k ∈ st.processedJoins) :
    k ∈ (handleJoin cfg s st).processedJoins := by
  by_cases h1 : s = cfg.selfId
  · simp [handleJoin, h1, hk]
  by_cases h2 : joinKeyOf cfg s ∈ st.processedJoins
  · simp [handleJoin, h1, h2, hk]
  by_cases h3 : st.isConnecting = true ∨ st.isConnected = true
  · simp [handleJoin, h1, h2, h3, hk]
  rw [handleJoin, if_neg h1, if_neg h2, if_neg h3]
  cases hpc : st.pc with
  | none => simp [hpc, hk]
  | some t =>
    by_cases h4 : isInProgressState t.signalingState
    · have herase : (st.processedJoins ++ [joinKeyOf cfg s]).erase (joinKeyOf cfg s)
          = st.processedJoins := by
        rw [List.erase_append_right _ h2, List.erase_cons_head, List.append_nil]
      simp [hpc, h4, herase, hk]
    · have h4' : isInProgressState t.signalingState = false := by
        cases hb : isInProgressState t.signalingState
        · rfl
        · exact absurd hb h4
      cases hrole : resolveRole cfg.selfId s <;>
      · by_cases h5 : t.signalingState = SignalingState.closed
        · simp [hpc, h5, hrole, leaderNegotiate, isInProgressState, hk]
        · simp [hpc, h4', h5, hrole, leaderNegotiate, hk]

/-- Claim C8: on every message-handling step that is not a Leave (and on
every connectivity event and announcer tick), every key present in the
processed-join set before the step is still present after it; the set
shrinks only on Leave or teardown. -/
theorem processed_joins_monotone (cfg : Config) (st : Coordinator) (m : Msg)
    (k : String) (cs : ConnState)
    (hm : ∀ s, m ≠ Msg.leave s) (hk : k ∈ st.processedJoins) :
    k ∈ (handleMessage cfg st m).processedJoins
    ∧ (handleConnectionState st cs).processedJoins = st.processedJoins
    ∧ (announcerTick st).processedJoins = st.processedJoins := by
  have hcp : (createPeerConnection st).processedJoins = st.processedJoins := by
    cases hpc : st.pc <;> simp [createPeerConnection, hpc]
  refine ⟨?_, ?_, ?_⟩
  · cases m with
    | join s =>
      exact handleJoin_processedJoins_mono cfg s _ k (by rw [hcp]; exact hk)
    | offer s p =>
      rw [handleMessage_offer]
      cases hpc : (createPeerConnection st).pc <;> simp [handleOffer, hpc, hcp, hk]
    | answer s p =>
      rw [handleMessage_answer]
      cases hpc : (createPeerConnection st).pc with
      | none => simp [handleAnswer, hpc, hcp, hk]
      | some t =>
        by_cases h : t.signalingState = SignalingState.haveLocalOffer <;>
          simp [handleAnswer, hpc, h, hcp, hk]
    | ice s c =>
      rw [handleMessage_ice]
      cases hpc : (createPeerConnection st).pc with
      | none => simp [handleIce, hpc, hcp, hk]
      | some t =>
        by_cases h : (createPeerConnection st).hasRemoteDescription = false <;>
          simp [handleIce, hpc, h, hcp, hk]
    | leave s => exact absurd rfl (hm s)
    | kick s => simp [handleMessage, hcp, hk]
  · cases cs <;> simp [handleConnectionState]
  · unfold announcerTick
    split_ifs <;> rfl

/-! ### The announcer run with no counterpart -/

/-- The coordinator after k effective resend ticks with no counterpart. -/
def tickState (k : Nat) : Coordinator :=
  { initCoordinator with resendCount := k
                         outbox := List.replicate (k + 1) OutMsg.join }

theorem afterTicks_closed (n : Nat) : afterTicks n = tickState (min n maxResends) := by
  induction n with
  | zero => decide
  | succ n ih =>
    rw [afterTicks, Function.iterate_succ_apply']
    rw [show announcerTick^[n] initCoordinator = afterTicks n from rfl, ih]
    by_cases h : n < maxResends
    · rw [Nat.min_eq_left (Nat.le_of_lt h), Nat.min_eq_left h]
      simp [announcerTick, tickState, initCoordinator, h, List.replicate_succ']
    · have h5 : maxResends ≤ n := Nat.le_of_not_lt h
      rw [Nat.min_eq_right h5, Nat.min_eq_right (Nat.le_succ_of_le h5)]
      simp [announcerTick, tickState, initCoordinator, maxResends]

theorem countJoins_replicate (m : Nat) :
    countJoins (List.replicate m OutMsg.join) = m := by
  induction m with
  | zero => rfl
  | succ m ih =>
    rw [List.replicate_succ]
    simp only [countJoins, List.filter_cons] at ih ⊢
    simp [OutMsg.isJoin, ih]

/-- Claim C9: with no counterpart ever joining, the announcer emits the
initial Join plus exactly min n maxResends retries over n timer ticks —
so exactly 1 + maxResends sends in total once n reaches the cap — and
after the cap every further tick is a no-op, the coordinator still
awaiting a counterpart with no error and no transport; a tick that finds
the coordinator connecting or connected sends nothing and cancels the
interval. -/
theorem presence_retry_bound (n m : Nat) (st : Coordinator)
    (hc : st.isConnecting = true ∨ st.isConnected = true) :
    countJoins (afterTicks n).outbox = 1 + min n maxResends
    ∧ (afterTicks n).errorMsg = none
    ∧ (afterTicks n).isConnecting = false
    ∧ (afterTicks n).isConnected = false
    ∧ (afterTicks n).pc = none
    ∧ afterTicks (m + maxResends + 1) = afterTicks (m + maxResends)
    ∧ (announcerTick st).outbox = st.outbox
    ∧ (announcerTick st).intervalActive = false := by
  have hcancel : (announcerTick st).outbox = st.outbox
      ∧ (announcerTick st).intervalActive = false := by
    unfold announcerTick
    by_cases hia : st.intervalActive = false
    · simp [hia]
    · rcases hc with h | h <;> simp [hia, h]
  refine ⟨?_, ?_, ?_, ?_, ?_, ?_, hcancel.1, hcancel.2⟩
  · rw [afterTicks_closed]
    simp [tickState, initCoordinator, countJoins_replicate, Nat.add_comm]
  · rw [afterTicks_closed]; simp [tickState, initCoordinator]
  · rw [afterTicks_closed]; simp [tickState, initCoordinator]
  · rw [afterTicks_closed]; simp [tickState, initCoordinator]
  · rw [afterTicks_closed]; simp [tickState, initCoordinator]
  · rw [afterTicks_closed, afterTicks_closed,
      Nat.min_eq_right (by omega), Nat.min_eq_right (by omega)]

/-- Claim C10: an Answer received while the transport is not in
have-local-offer is a complete no-op: the whole coordinator state —
transport, remote-description flag, pending queue and every other field —
is returned unchanged. -/
theorem answer_ignored_outside_have_local_offer (cfg : Config) (st : Coordinator)
    (t : Transport) (s p : String) (hpc : st.pc = some t)
    (hns : t.signalingState ≠ SignalingState.haveLocalOffer) :
    handleMessage cfg st (Msg.answer s p) = st := by
  rw [handleMessage_answer, createPeerConnection_of_some st t hpc]
  simp [handleAnswer, hpc, hns]

/-! ### Concrete test points for the witnesses -/

/-- A concrete room environment: identity a1 in room sunnyriver42; the
transport rejects candidate 3 and accepts every other. -/
def cfgEx : Config :=
  { selfId := "a1"
    roomId := "sunnyriver42"
    applyOk := fun c => decide (c ≠ 3)
    offerSdp := "offer-sdp"
    answerSdp := "answer-sdp" }

/-- A concrete transport that has sent a local offer. -/
def tLo : Transport :=
  { signalingState := SignalingState.haveLocalOffer
    remoteDescription := none
    localDescription := some "offer-sdp"
    ops := [] }

/-- A leader awaiting its answer, two candidates queued. -/
def stQ : Coordinator :=
  { initCoordinator with pc := some tLo
                         isConnecting := true
                         pendingIceCandidates := [1, 2] }

/-- A coordinator whose remote description is already set. -/
def stA : Coordinator :=
  { initCoordinator with pc := some tLo
                         hasRemoteDescription := true }

/-- A coordinator whose queue holds the failing candidate 3 in the middle. -/
def stF : Coordinator :=
  { initCoordinator with pc := some tLo
                         pendingIceCandidates := [1, 3, 2] }

/-- Claim C1 witness: evaluated at the distinct identifiers a1 and b2. -/
theorem role_resolution_complementary_witness :
    ("a1" : String) ≠ "b2"
    ∧ ((resolveRole "a1" "b2" = Role.Follower ↔ strGt "a1" "b2" = true)
       ∧ ((resolveRole "a1" "b2" = Role.Leader ∧ resolveRole "b2" "a1" = Role.Follower)
           ∨ (resolveRole "a1" "b2" = Role.Follower ∧ resolveRole "b2" "a1" = Role.Leader))
       ∧ resolveRole "a1" "b2" = resolveRole "a1" "b2") :=
  ⟨by decide, role_resolution_complementary "a1" "b2" (by decide)⟩

/-- Claim C2 witness: a first join from b2 against the initial state, then
the same join again. -/
theorem join_idempotent_witness :
    "b2" ≠ cfgEx.selfId
    ∧ joinKeyOf cfgEx "b2" ∉ initCoordinator.processedJoins
    ∧ initCoordinator.isConnecting = false
    ∧ initCoordinator.isConnected = false
    ∧ (joinKeyOf cfgEx "b2"
          ∈ (handleMessage cfgEx initCoordinator (Msg.join "b2")).processedJoins
       ∧ (handleMessage cfgEx initCoordinator (Msg.join "b2")).isConnecting = true
       ∧ (resolveRole cfgEx.selfId "b2" = Role.Leader →
           (handleMessage cfgEx initCoordinator (Msg.join "b2")).outbox
             = initCoordinator.outbox ++ [OutMsg.offer cfgEx.offerSdp])
       ∧ handleMessage cfgEx (handleMessage cfgEx initCoordinator (Msg.join "b2"))
             (Msg.join "b2")
           = handleMessage cfgEx initCoordinator (Msg.join "b2")) :=
  ⟨by decide, by decide, rfl, rfl,
    join_idempotent cfgEx initCoordinator "b2" (by decide) (by decide) rfl rfl
      (Or.inl rfl)⟩

/-- Claim C3 witness: candidate 4 against a queueing-phase state and an
apply-phase state, and the drains at a concrete queue of two candidates. -/
theorem ice_candidate_queueing_witness :
    stQ.pc = some tLo ∧ stQ.hasRemoteDescription = false
    ∧ tLo.signalingState = SignalingState.haveLocalOffer
    ∧ stA.pc = some tLo ∧ stA.hasRemoteDescription = true
    ∧ ((handleMessage cfgEx stQ (Msg.ice "b2" 4)).pendingIceCandidates
          = stQ.pendingIceCandidates ++ [4]
       ∧ (handleMessage cfgEx stQ (Msg.ice "b2" 4)).pc = some tLo
       ∧ (handleMessage cfgEx stA (Msg.ice "b2" 4)).pendingIceCandidates
          = stA.pendingIceCandidates
       ∧ (handleMessage cfgEx stA (Msg.ice "b2" 4)).pc
          = some (addIceCandidate cfgEx.applyOk 4 tLo)
       ∧ (∃ t', (handleMessage cfgEx stQ (Msg.offer "b2" "sdp")).pc = some t'
          ∧ t'.attempted = tLo.attempted ++ stQ.pendingIceCandidates)
       ∧ (handleMessage cfgEx stQ (Msg.offer "b2" "sdp")).pendingIceCandidates = []
       ∧ (handleMessage cfgEx stQ (Msg.offer "b2" "sdp")).hasRemoteDescription = true
       ∧ (∃ t', (handleMessage cfgEx stQ (Msg.answer "b2" "sdp")).pc = some t'
          ∧ t'.attempted = tLo.attempted ++ stQ.pendingIceCandidates)
       ∧ (handleMessage cfgEx stQ (Msg.answer "b2" "sdp")).pendingIceCandidates = []
       ∧ (handleMessage cfgEx stQ (Msg.answer "b2" "sdp")).hasRemoteDescription = true) :=
  ⟨rfl, rfl, rfl, rfl, rfl,
    ice_candidate_queueing cfgEx stQ stA tLo tLo 4 "b2" "sdp" rfl rfl rfl rfl rfl⟩

/-- Claim C4 witness: the queue 1, 3, 2 where candidate 3 fails to apply. -/
theorem drain_continues_past_failure_witness :
    stF.pc = some tLo
    ∧ stF.pendingIceCandidates = [1] ++ 3 :: [2]
    ∧ cfgEx.applyOk 3 = false
    ∧ ((∃ t', (handleMessage cfgEx stF (Msg.offer "b2" "sdp")).pc = some t'
        ∧ t'.attempted = tLo.attempted ++ ([1] ++ 3 :: [2])
        ∧ t'.applied = tLo.applied
            ++ (([1].filter cfgEx.applyOk) ++ ([2].filter cfgEx.applyOk)))
       ∧ (handleMessage cfgEx stF (Msg.offer "b2" "sdp")).errorMsg = none
       ∧ (handleMessage cfgEx stF (Msg.offer "b2" "sdp")).pendingIceCandidates = []) :=
  ⟨rfl, rfl, by decide,
    drain_continues_past_failure cfgEx stF tLo [1] [2] 3 "b2" "sdp" rfl rfl (by decide)⟩

/-- Claim C5 witness: a foreign offer hitting the leader stQ, whose
transport is in have-local-offer, hence not stable. -/
theorem glare_rollback_unconditional_witness :
    stQ.pc = some tLo
    ∧ tLo.signalingState ≠ SignalingState.stable
    ∧ ((∃ t', (handleMessage cfgEx stQ (Msg.offer "b2" "their-offer")).pc = some t'
        ∧ t'.ops = tLo.ops ++ [TOp.rollback, TOp.setRemote "their-offer"]
            ++ (stQ.pendingIceCandidates.map fun c => TOp.addIce c (cfgEx.applyOk c))
            ++ [TOp.setLocal cfgEx.answerSdp])
       ∧ (handleMessage cfgEx stQ (Msg.offer "b2" "their-offer")).outbox
          = stQ.outbox ++ [OutMsg.answer cfgEx.answerSdp]
       ∧ (handleMessage cfgEx stQ (Msg.offer "b2" "their-offer")).pendingIceCandidates = []
       ∧ (handleMessage cfgEx stQ (Msg.offer "b2" "their-offer")).hasRemoteDescription
          = true) :=
  ⟨rfl, by decide,
    glare_rollback_unconditional cfgEx stQ tLo "b2" "their-offer" rfl (by decide)⟩

/-- Claim C6 witness: a leave hitting the concrete mid-exchange state,
then a join from the new sender c3. -/
theorem leave_reset_correct_witness :
    "c3" ≠ cfgEx.selfId
    ∧ ((handleMessage cfgEx stEx (Msg.leave "b2")).pendingIceCandidates = []
       ∧ (handleMessage cfgEx stEx (Msg.leave "b2")).hasRemoteDescription = false
       ∧ (handleMessage cfgEx stEx (Msg.leave "b2")).pc = none
       ∧ (handleMessage cfgEx stEx (Msg.leave "b2")).processedJoins = []
       ∧ (handleMessage cfgEx (handleMessage cfgEx stEx (Msg.leave "b2"))
             (Msg.join "c3")).isConnecting = true
       ∧ joinKeyOf cfgEx "c3"
          ∈ (handleMessage cfgEx (handleMessage cfgEx stEx (Msg.leave "b2"))
              (Msg.join "c3")).processedJoins) :=
  ⟨by decide, leave_reset_correct cfgEx stEx "b2" "c3" (by decide)⟩

/-- Claim C7 witness for the amended statement: the failed event at the
concrete connecting state. -/
theorem conn_event_status_only_witness :
    (ConnState.failed = ConnState.disconnected ∨ ConnState.failed = ConnState.failed
      ∨ ConnState.failed = ConnState.closed)
    ∧ ((handleConnectionState stEx ConnState.failed).isConnected = false
       ∧ (handleConnectionState stEx ConnState.failed).isConnecting = false
       ∧ (handleConnectionState stEx ConnState.failed).errorMsg
          = some ("Connection " ++ connStateName ConnState.failed)
       ∧ (handleConnectionState stEx ConnState.failed).remoteStream = false
       ∧ (handleConnectionState stEx ConnState.failed).pc = stEx.pc
       ∧ (handleConnectionState stEx ConnState.failed).pendingIceCandidates
          = stEx.pendingIceCandidates
       ∧ (handleConnectionState stEx ConnState.failed).hasRemoteDescription
          = stEx.hasRemoteDescription
       ∧ (handleConnectionState stEx ConnState.failed).processedJoins
          = stEx.processedJoins) :=
  ⟨Or.inr (Or.inl rfl), conn_event_status_only stEx ConnState.failed (Or.inr (Or.inl rfl))⟩

/-- Claim C8 witness: an offer step, a connected event and a tick at the
concrete state whose processed-join set holds the key of b2. -/
theorem processed_joins_monotone_witness :
    "b2-sunnyriver42" ∈ stEx.processedJoins
    ∧ ("b2-sunnyriver42"
          ∈ (handleMessage cfgEx stEx (Msg.offer "b2" "sdp")).processedJoins
       ∧ (handleConnectionState stEx ConnState.connected).processedJoins
          = stEx.processedJoins
       ∧ (announcerTick stEx).processedJoins = stEx.processedJoins) :=
  ⟨by decide,
    processed_joins_monotone cfgEx stEx (Msg.offer "b2" "sdp") "b2-sunnyriver42"
      ConnState.connected (fun s h => Msg.noConfusion h) (by decide)⟩

/-- Claim C9 witness: seven ticks with no counterpart, and a cancelling
tick at the connecting state stQ. -/
theorem presence_retry_bound_witness :
    (stQ.isConnecting = true ∨ stQ.isConnected = true)
    ∧ (countJoins (afterTicks 7).outbox = 1 + min 7 maxResends
       ∧ (afterTicks 7).errorMsg = none
       ∧ (afterTicks 7).isConnecting = false
       ∧ (afterTicks 7).isConnected = false
       ∧ (afterTicks 7).pc = none
       ∧ afterTicks (2 + maxResends + 1) = afterTicks (2 + maxResends)
       ∧ (announcerTick stQ).outbox = stQ.outbox
       ∧ (announcerTick stQ).intervalActive = false) :=
  ⟨Or.inl rfl, presence_retry_bound 7 2 stQ (Or.inl rfl)⟩

/-- Claim C10 witness: a stray answer hitting the concrete state whose
transport sits in have-remote-offer. -/
theorem answer_ignored_outside_have_local_offer_witness :
    stEx.pc = some tEx
    ∧ tEx.signalingState ≠ SignalingState.haveLocalOffer
    ∧ handleMessage cfgEx stEx (Msg.answer "b2" "sdp") = stEx :=
  ⟨rfl, by decide,
    answer_ignored_outside_have_local_offer cfgEx stEx tEx "b2" "sdp" rfl (by decide)⟩

end AnonChat
